import Mathlib

/-!
Verification of the express-jobly core: the partial-update SQL builder
(`helpers/sql.js`), the auth middleware chain (`middleware/auth.js`), and the
Company/Job repository operations (models).  JavaScript dynamic values are
embedded as `JsValue`; the external query-execution collaborator (`db.query`)
is a parameter `dbq : Query → List Row`, and every repository operation also
returns the ordered list of queries it issued.
-/

/-- Dynamically typed JavaScript values, as far as this codebase inspects
them: `undefined`, `null`, booleans, numbers and strings. -/
inductive JsValue where
  | undef
  | null
  | bool (b : Bool)
  | num (n : Int)
  | str (s : String)
  deriving DecidableEq, Repr

/-- String coercion of a JsValue, as done by JS template interpolation. -/
def JsValue.interp : JsValue → String
  | .undef => "undefined"
  | .null => "null"
  | .bool b => cond b "true" "false"
  | .num n => toString n
  | .str s => s

/-- Errors raised by the code: the typed classes from `expressError`
(`NotFoundError`, `BadRequestError`, `UnauthorizedError`), plain untyped
`Error` objects, and JS `ReferenceError` for unbound identifiers. -/
inductive JError where
  | notFound (msg : String)
  | badRequest (msg : String)
  | unauthorized
  | plainError (msg : String)
  | referenceError (msg : String)
  deriving DecidableEq, Repr

/-- Result of `{ setCols, values }` from `sqlForPartialUpdate`. -/
structure SqlUpdate where
  setCols : String
  values : List JsValue
  deriving DecidableEq, Repr

/-- JS `jsToSql[colName]`: association-list lookup, `undefined` when the key
is absent. -/
def lookupStr (m : List (String × String)) (k : String) : Option String :=
  (m.find? (fun p => p.1 == k)).map Prod.snd

/-- JS `jsToSql[colName] || colName`: the looked-up name unless it is falsy
(absent, or the empty string), in which case the field name itself. -/
def resolveCol (jsToSql : List (String × String)) (colName : String) : String :=
  match lookupStr jsToSql colName with
  | some s => if s = "" then colName else s
  | none => colName

/-- The `keys.map((colName, idx) => ...)` expression of `sqlForPartialUpdate`:
one `"<column>"=$<n>` clause per key, `n` counting from 1. -/
def sqlCols (dataToUpdate : List (String × JsValue))
    (jsToSql : List (String × String)) : List String :=
  (dataToUpdate.map Prod.fst).enum.map
    (fun p => "\"" ++ resolveCol jsToSql p.2 ++ "\"=$" ++ toString (p.1 + 1))

/-- `sqlForPartialUpdate(dataToUpdate, jsToSql)` from `helpers/sql.js`.
The update payload is an ordered key/value mapping (JS object in iteration
order); throws `BadRequestError("No data")` on an empty payload. -/
def sqlForPartialUpdate (dataToUpdate : List (String × JsValue))
    (jsToSql : List (String × String)) : Except JError SqlUpdate :=
  let keys := dataToUpdate.map Prod.fst
  if keys.length = 0 then .error (.badRequest "No data")
  else
    .ok { setCols := String.intercalate ", " (sqlCols dataToUpdate jsToSql),
          values := dataToUpdate.map Prod.snd }

instance {ε α : Type} [DecidableEq ε] [DecidableEq α] : DecidableEq (Except ε α)
  | .ok a, .ok b => decidable_of_iff (a = b) (by simp)
  | .ok _, .error _ => isFalse (fun h => Except.noConfusion h)
  | .error _, .ok _ => isFalse (fun h => Except.noConfusion h)
  | .error e, .error f => decidable_of_iff (e = f) (by simp)

/-- Decoded JWT payload stored on `res.locals.user`: the `username` claim and
the `isAdmin` claim, the latter an arbitrary JS value since nothing forces it
to be a boolean before `ensureIsAdmin` checks it. -/
structure Principal where
  username : String
  isAdmin : JsValue
  deriving DecidableEq, Repr

/-- JS `String.prototype.trim()`: drops whitespace from both ends.  Header
strings are embedded as `List Char`. -/
def jsTrim (s : List Char) : List Char :=
  ((s.dropWhile Char.isWhitespace).reverse.dropWhile Char.isWhitespace).reverse

/-- The `authHeader.replace(/^[Bb]earer /, "")` step: the regex matches
exactly when the first seven characters are `Bearer ` or `bearer ` (only the
first letter may vary in case), and then removes them. -/
def stripBearer (s : List Char) : List Char :=
  if s.take 7 = "Bearer ".toList ∨ s.take 7 = "bearer ".toList then s.drop 7 else s

/-- `authenticateJWT(req, res, next)` from `middleware/auth.js`.  `verify`
stands for `jwt.verify(·, SECRET_KEY)`: `none` when verification throws.
`authHeader` is `req.headers && req.headers.authorization` (`none` when the
header is missing); an empty header string is falsy in JS, so it skips the
verification branch.  `locals` is `res.locals.user` on entry; the result is
`res.locals.user` on exit, wrapped in `Except` to record that the middleware
itself never throws (the `try/catch` swallows verification failures and calls
`next()` on every path). -/
def authenticateJWT (verify : List Char → Option Principal)
    (authHeader : Option (List Char)) (locals : Option Principal) :
    Except JError (Option Principal) :=
  match authHeader with
  | none => .ok locals
  | some h =>
      if h = [] then .ok locals
      else
        match verify (jsTrim (stripBearer h)) with
        | some p => .ok (some p)
        | none => .ok locals

/-- `ensureIsAdmin(req, res, next)` from `middleware/auth.js`: proceeds only
when `res.locals.user` is present and `res.locals.user.isAdmin === true`
(strict equality with the boolean `true`); otherwise throws
`UnauthorizedError`. -/
def ensureIsAdmin (locals : Option Principal) : Except JError Unit :=
  match locals with
  | some u => if u.isAdmin = JsValue.bool true then .ok () else .error .unauthorized
  | none => .error .unauthorized

/-- A concrete stand-in for the credential-verification collaborator, used to
evaluate the middleware on closed inputs: accepts exactly the token string
`goodtok`. -/
def sampleVerify (t : List Char) : Option Principal :=
  if t = "goodtok".toList then some { username := "u", isAdmin := JsValue.bool true }
  else none

/-- A result row: a mapping from column name to value (spec section 6). -/
abbrev Row := List (String × JsValue)

/-- The parameterized queries the repository issues through `db.query`, one
constructor per query site in the source, carrying the bind values (and, for
the dynamically assembled statements, the generated SQL fragment). -/
inductive Query where
  | selectCompanyByHandle (handle : String)
  | insertJob (values : List JsValue)
  | deleteJob (values : List JsValue)
  | selectCompaniesWhere (whereClause : String) (values : List JsValue)
  | selectJobsWhere (whereClause : String) (values : List JsValue)
  | updateJobs (setCols : String) (values : List JsValue)
  | updateCompanies (setCols : String) (values : List JsValue)
  deriving DecidableEq, Repr

/-- The external query-execution collaborator `db.query`: this core delegates
SQL semantics to it and only observes the returned rows. -/
abbrev Dbq := Query → List Row

/-- Result of `{ where, values }` from a `_createSqlFilter`. -/
structure SqlFilter where
  whereClause : String
  values : List JsValue
  deriving DecidableEq, Repr

/-- Optional Job list filters, `undefined` fields as `none`; `hasEquity` is
kept as a raw JS value because the code compares it with `=== true`. -/
structure JobFilter where
  titleLike : Option String
  minSalary : Option Int
  hasEquity : JsValue
  deriving DecidableEq, Repr

/-- The criteria / values pairs accumulated by `Job._createSqlFilter`, in push
order: `titleLike`, then `minSalary`, then the valueless `equity > 0`
criterion exactly when `hasEquity === true`. -/
def jobFilterParts (filterBy : JobFilter) : List String × List JsValue :=
  let cs0 : List String := []
  let vs0 : List JsValue := []
  let (cs1, vs1) :=
    match filterBy.titleLike with
    | some t => (cs0 ++ ["title ILIKE $" ++ toString (vs0.length + 1)],
                 vs0 ++ [JsValue.str ("%" ++ t ++ "%")])
    | none => (cs0, vs0)
  let (cs2, vs2) :=
    match filterBy.minSalary with
    | some mn => (cs1 ++ ["salary >= $" ++ toString (vs1.length + 1)],
                  vs1 ++ [JsValue.num mn])
    | none => (cs1, vs1)
  let cs3 := if filterBy.hasEquity = JsValue.bool true then cs2 ++ ["equity > 0"] else cs2
  (cs3, vs2)

/-- `Job._createSqlFilter(filterBy)` from the Job model. -/
def Job.createSqlFilter (filterBy : JobFilter) : SqlFilter :=
  let parts := jobFilterParts filterBy
  { whereClause := String.intercalate " AND " parts.1, values := parts.2 }

/-- Optional Company list filters, `undefined` fields as `none`. -/
structure CompanyFilter where
  nameLike : Option String
  minEmployees : Option Int
  maxEmployees : Option Int
  deriving DecidableEq, Repr

/-- `Company._createSqlFilter(filterBy)` from the Company model: criteria and
values accumulated in push order `nameLike`, `minEmployees`,
`maxEmployees`. -/
def Company.createSqlFilter (filterBy : CompanyFilter) : SqlFilter :=
  let cs0 : List String := []
  let vs0 : List JsValue := []
  let (cs1, vs1) :=
    match filterBy.nameLike with
    | some n => (cs0 ++ ["name ILIKE $" ++ toString (vs0.length + 1)],
                 vs0 ++ [JsValue.str ("%" ++ n ++ "%")])
    | none => (cs0, vs0)
  let (cs2, vs2) :=
    match filterBy.minEmployees with
    | some mn => (cs1 ++ ["num_employees >= $" ++ toString (vs1.length + 1)],
                  vs1 ++ [JsValue.num mn])
    | none => (cs1, vs1)
  let (cs3, vs3) :=
    match filterBy.maxEmployees with
    | some mx => (cs2 ++ ["num_employees <= $" ++ toString (vs2.length + 1)],
                  vs2 ++ [JsValue.num mx])
    | none => (cs2, vs2)
  { whereClause := String.intercalate " AND " cs3, values := vs3 }

/-- `Job.create({ title, salary, equity, companyHandle })`: first the
referential pre-check `SELECT handle FROM companies WHERE handle = $1`; if it
returns no row, throws `NotFoundError` naming the handle without issuing the
insert; otherwise issues the `INSERT INTO jobs ... RETURNING ...` and returns
its first row (`result.rows[0]`).  The second component is the ordered list of
queries issued. -/
def Job.create (dbq : Dbq) (title salary equity : JsValue) (companyHandle : String) :
    Except JError (Option Row) × List Query :=
  let pre := Query.selectCompanyByHandle companyHandle
  match dbq pre with
  | [] => (.error (.notFound ("No company: " ++ companyHandle)), [pre])
  | _ :: _ =>
      let ins := Query.insertJob [title, salary, equity, JsValue.str companyHandle]
      ((dbq ins).head?.elim (.ok none) (fun r => .ok (some r)), [pre, ins])

/-- `Job.update(jobId, data)`: builds the SET clause via
`sqlForPartialUpdate(data, {})` (an exception there propagates before any
query is issued), then issues one UPDATE with the bind values followed by the
id, and throws `NotFoundError` when no row comes back. -/
def Job.update (dbq : Dbq) (jobId : JsValue) (data : List (String × JsValue)) :
    Except JError Row × List Query :=
  match sqlForPartialUpdate data [] with
  | .error e => (.error e, [])
  | .ok u =>
      let q := Query.updateJobs u.setCols (u.values ++ [jobId])
      match (dbq q).head? with
      | some job => (.ok job, [q])
      | none => (.error (.notFound ("No job: " ++ jobId.interp)), [q])

/-- `Job.remove(jobId)` as written in the source: the parameter is named
`jobId`, but the body reads `id` — an unbound identifier — both in the bind
array `[id]` and in the error message.  Under `use strict` evaluating the
bind array throws `ReferenceError: id is not defined` before `db.query` is
reached, so the DELETE is never issued, on every input. -/
def Job.remove (dbq : Dbq) (jobId : JsValue) : Except JError Unit × List Query :=
  (.error (.referenceError "id is not defined"), [])

/-- `Company.findSome(filterBy)`: the min/max guard
`filterBy.minEmployees !== undefined && filterBy.maxEmployees !== undefined &&
filterBy.minEmployees > filterBy.maxEmployees`. -/
def minMaxInvalid (filterBy : CompanyFilter) : Bool :=
  match filterBy.minEmployees, filterBy.maxEmployees with
  | some mn, some mx => mn > mx
  | _, _ => false

/-- `Company.findSome(filterBy)`: when the min/max guard trips, throws the
plain `Error('min needs to be less than max')` before the filter builder runs
and before any query is issued; otherwise builds the WHERE clause and issues
the one SELECT, returning its rows. -/
def Company.findSome (dbq : Dbq) (filterBy : CompanyFilter) :
    Except JError (List Row) × List Query :=
  if minMaxInvalid filterBy then
    (.error (.plainError "min needs to be less than max"), [])
  else
    let f := Company.createSqlFilter filterBy
    let q := Query.selectCompaniesWhere f.whereClause f.values
    (.ok (dbq q), [q])

/-- `Company.update(handle, data)`: builds the SET clause via
`sqlForPartialUpdate(data, {numEmployees: "num_employees", logoUrl:
"logo_url"})` (an exception there propagates before any query is issued),
then issues one UPDATE and throws `NotFoundError` when no row comes back. -/
def Company.update (dbq : Dbq) (handle : String) (data : List (String × JsValue)) :
    Except JError Row × List Query :=
  match sqlForPartialUpdate data
      [("numEmployees", "num_employees"), ("logoUrl", "logo_url")] with
  | .error e => (.error e, [])
  | .ok u =>
      let q := Query.updateCompanies u.setCols (u.values ++ [JsValue.str handle])
      match (dbq q).head? with
      | some company => (.ok company, [q])
      | none => (.error (.notFound ("No company: " ++ handle)), [q])

/-- A query collaborator that returns no rows for every query. -/
def dbqNone : Dbq := fun _ => []

/-- A query collaborator over a store holding exactly one company `c1`: the
pre-check finds it and the job insert returns a row with the generated id. -/
def dbqC1 : Dbq := fun q =>
  match q with
  | Query.selectCompanyByHandle h => if h = "c1" then [[("handle", JsValue.str "c1")]] else []
  | Query.insertJob vs => [(("id", JsValue.num 1) :: ("title", vs.headD JsValue.undef) :: [])]
  | _ => []

/-- Modelled from the spec (section 7 error taxonomy; the `expressError`
module itself is not under `src/`): a "ValidationError" — the kind raised for
malformed or missing input such as the empty partial-update payload — is
realized in this codebase by the typed `BadRequestError` class.  A plain
untyped `Error` is not of that kind, nor is any of the other typed
classes. -/
def specIsValidationError : JError → Bool
  | .badRequest _ => true
  | _ => false

/-- C1: the claim says a nonexistent job id makes `Job.remove` fail with a
`NotFoundError` naming the id; in fact the body reads the unbound identifier
`id` instead of the parameter `jobId`, so every call — whatever the id and
whatever the store contents — throws `ReferenceError: id is not defined`
before any DELETE query is issued, and never a `NotFoundError`. -/
theorem job_remove_always_referenceError (dbq : Dbq) (jobId : JsValue) :
    (Job.remove dbq jobId).1 = .error (.referenceError "id is not defined") ∧
    (Job.remove dbq jobId).2 = [] :=
  ⟨rfl, rfl⟩

/-- C5: `ensureIsAdmin` proceeds exactly when a Principal is attached whose
`isAdmin` is the boolean `true`; in every other case — no Principal, `false`,
or a truthy non-boolean such as the string `"true"` — it throws
`UnauthorizedError`. -/
theorem ensureIsAdmin_strict_bool (locals : Option Principal) :
    (ensureIsAdmin locals = .ok () ↔
      ∃ u, locals = some u ∧ u.isAdmin = JsValue.bool true) ∧
    (ensureIsAdmin locals = .ok () ∨ ensureIsAdmin locals = .error JError.unauthorized) ∧
    ensureIsAdmin (some ⟨"admin", JsValue.str "true"⟩) = .error JError.unauthorized := by
  refine ⟨?_, ?_, rfl⟩
  · cases locals with
    | none => simp [ensureIsAdmin]
    | some u =>
        by_cases h : u.isAdmin = JsValue.bool true <;> simp [ensureIsAdmin, h]
  · cases locals with
    | none => exact Or.inr rfl
    | some u =>
        by_cases h : u.isAdmin = JsValue.bool true
        · exact Or.inl (by simp [ensureIsAdmin, h])
        · exact Or.inr (by simp [ensureIsAdmin, h])

/-- Stripping the exact seven-character `Bearer ` prefix. -/
theorem stripBearer_append_title (rest : List Char) :
    stripBearer ("Bearer ".toList ++ rest) = rest := rfl

/-- Stripping the exact seven-character `bearer ` prefix. -/
theorem stripBearer_append_lower (rest : List Char) :
    stripBearer ("bearer ".toList ++ rest) = rest := rfl

/-- The `Bearer ` stripping lemma restated on the character list that `simp`
normalizes header literals to. -/
theorem stripBearer_cons_title (rest : List Char) :
    stripBearer ('B' :: 'e' :: 'a' :: 'r' :: 'e' :: 'r' :: ' ' :: rest) = rest := rfl

/-- The `bearer ` stripping lemma restated on the character list that `simp`
normalizes header literals to. -/
theorem stripBearer_cons_lower (rest : List Char) :
    stripBearer ('b' :: 'e' :: 'a' :: 'r' :: 'e' :: 'r' :: ' ' :: rest) = rest := rfl

/-- C2 (amended): only the prefixes `Bearer ` and `bearer ` — the first
letter in either case, the rest lowercase — are stripped before the remainder
is trimmed and verified; on success the decoded claims become the
Principal. -/
theorem authenticateJWT_bearer_stripped (verify : List Char → Option Principal)
    (rest : List Char) (p : Principal) (locals : Option Principal)
    (hv : verify (jsTrim rest) = some p) :
    authenticateJWT verify (some ("Bearer ".toList ++ rest)) locals = .ok (some p) ∧
    authenticateJWT verify (some ("bearer ".toList ++ rest)) locals = .ok (some p) := by
  have hne1 : ("Bearer ".toList ++ rest) ≠ [] := by simp
  have hne2 : ("bearer ".toList ++ rest) ≠ [] := by simp
  constructor
  · simp [authenticateJWT, hne1, stripBearer_cons_title, hv]
  · simp [authenticateJWT, hne2, stripBearer_cons_lower, hv]

theorem authenticateJWT_bearer_stripped_witness :
    sampleVerify (jsTrim ("goodtok".toList)) =
      some { username := "u", isAdmin := JsValue.bool true } ∧
    authenticateJWT sampleVerify (some ("Bearer ".toList ++ "goodtok".toList)) none =
      .ok (some { username := "u", isAdmin := JsValue.bool true }) :=
  ⟨by decide,
   (authenticateJWT_bearer_stripped sampleVerify ("goodtok".toList)
      { username := "u", isAdmin := JsValue.bool true } none (by decide)).1⟩

/-- C2 (counterexample to the claim as stated): the header `BEARER goodtok`
carries the prefix `BEARER` — a letter-case variant of `Bearer` — and a token
the verifier accepts, yet no Principal is attached, because the regex
`/^[Bb]earer /` does not match `BEARER `. -/
theorem authenticateJWT_uppercase_not_stripped :
    sampleVerify ("goodtok".toList) =
      some { username := "u", isAdmin := JsValue.bool true } ∧
    authenticateJWT sampleVerify (some ("BEARER goodtok".toList)) none = .ok none :=
  ⟨by decide, by decide⟩

/-- C4: with no authorization header, or with any header whose credential
fails verification (malformed, wrong signature, expired — all surfacing as a
`verify` failure), `authenticateJWT` attaches no Principal, raises nothing,
and the request proceeds. -/
theorem authenticateJWT_fail_open (verify : List Char → Option Principal)
    (hdr : List Char) (hfail : verify (jsTrim (stripBearer hdr)) = none) :
    authenticateJWT verify none none = .ok none ∧
    authenticateJWT verify (some hdr) none = .ok none := by
  refine ⟨rfl, ?_⟩
  unfold authenticateJWT
  by_cases h : hdr = []
  · simp [h]
  · simp [h, hfail]

theorem authenticateJWT_fail_open_witness :
    sampleVerify (jsTrim (stripBearer ("BEARER junk".toList))) = none ∧
    authenticateJWT sampleVerify none none = .ok none ∧
    authenticateJWT sampleVerify (some ("BEARER junk".toList)) none = .ok none :=
  ⟨by decide,
   (authenticateJWT_fail_open sampleVerify ("BEARER junk".toList) (by decide)).1,
   (authenticateJWT_fail_open sampleVerify ("BEARER junk".toList) (by decide)).2⟩

/-- C10: a header holding a bare valid token — nothing resembling a stripped
`Bearer `/`bearer ` prefix, no surrounding whitespace — is verified as-is and
its decoded claims become the Principal. -/
theorem authenticateJWT_raw_token (verify : List Char → Option Principal)
    (tok : List Char) (p : Principal) (locals : Option Principal)
    (h0 : tok ≠ [])
    (h1 : tok.take 7 ≠ "Bearer ".toList) (h2 : tok.take 7 ≠ "bearer ".toList)
    (h3 : jsTrim tok = tok) (h4 : verify tok = some p) :
    authenticateJWT verify (some tok) locals = .ok (some p) := by
  have h1c : List.take 7 tok ≠ ('B' :: 'e' :: 'a' :: 'r' :: 'e' :: 'r' :: [' ']) := h1
  have h2c : List.take 7 tok ≠ ('b' :: 'e' :: 'a' :: 'r' :: 'e' :: 'r' :: [' ']) := h2
  simp [authenticateJWT, stripBearer, h0, h1c, h2c, h3, h4]

theorem authenticateJWT_raw_token_witness :
    sampleVerify ("goodtok".toList) =
      some { username := "u", isAdmin := JsValue.bool true } ∧
    authenticateJWT sampleVerify (some ("goodtok".toList)) none =
      .ok (some { username := "u", isAdmin := JsValue.bool true }) :=
  ⟨by decide,
   authenticateJWT_raw_token sampleVerify ("goodtok".toList)
     { username := "u", isAdmin := JsValue.bool true } none
     (by decide) (by decide) (by decide) (by decide) (by decide)⟩

/-- C7: an empty update payload makes both `Job.update` and `Company.update`
fail with the validation error (`BadRequestError`, message `No data`) raised
by `sqlForPartialUpdate`, before any query is issued. -/
theorem update_empty_payload_fails (dbq : Dbq) (jobId : JsValue) (handle : String) :
    Job.update dbq jobId [] = (.error (.badRequest "No data"), []) ∧
    Company.update dbq handle [] = (.error (.badRequest "No data"), []) :=
  ⟨rfl, rfl⟩

/-- Lengths: one generated clause per supplied field. -/
theorem sqlCols_length (data : List (String × JsValue)) (jsToSql : List (String × String)) :
    (sqlCols data jsToSql).length = data.length := by
  simp [sqlCols, List.enum_eq_enumFrom]

/-- The clause at position `i` (counting from 0) quotes the resolved column
name of the `i`-th field and uses the parameter marker `$ (i+1)`. -/
theorem sqlCols_getD (data : List (String × JsValue)) (jsToSql : List (String × String))
    (i : Nat) (hi : i < data.length) :
    (sqlCols data jsToSql).getD i "" =
      "\"" ++ resolveCol jsToSql ((data.getD i ("", JsValue.undef)).1) ++ "\"=$" ++
        toString (i + 1) := by
  have h3 : i < (sqlCols data jsToSql).length := by
    rw [sqlCols_length]
    exact hi
  rw [List.getD_eq_getElem _ _ h3, List.getD_eq_getElem _ _ hi]
  simp [sqlCols, List.enum_eq_enumFrom, List.getElem_enumFrom]

/-- C6 (amended): for a non-empty payload, `sqlForPartialUpdate` succeeds
with exactly one clause per supplied field in the payload's iteration order,
clause `i` being `"<column>"=$<i+1>` — parameter indices increasing from 1
with no gaps — a bind-value list of the same length whose `i`-th entry is the
`i`-th field's value, and each column name resolved to the caller-supplied
remapping when one is present and non-empty (JS `||` treats the empty string
as absent), else the field name verbatim, in double quotes. -/
theorem sqlForPartialUpdate_clauses (data : List (String × JsValue))
    (jsToSql : List (String × String)) (hne : data ≠ []) :
    sqlForPartialUpdate data jsToSql =
      .ok { setCols := String.intercalate ", " (sqlCols data jsToSql),
            values := data.map Prod.snd } ∧
    (sqlCols data jsToSql).length = data.length ∧
    (data.map Prod.snd).length = data.length ∧
    (∀ i, i < data.length →
      (sqlCols data jsToSql).getD i "" =
        "\"" ++ resolveCol jsToSql ((data.getD i ("", JsValue.undef)).1) ++ "\"=$" ++
          toString (i + 1)) ∧
    (∀ i, i < data.length →
      (data.map Prod.snd).getD i JsValue.undef = (data.getD i ("", JsValue.undef)).2) ∧
    (∀ k s, lookupStr jsToSql k = some s → s ≠ "" → resolveCol jsToSql k = s) ∧
    (∀ k, lookupStr jsToSql k = none → resolveCol jsToSql k = k) := by
  have hlen : ¬((data.map Prod.fst).length = 0) := by
    simpa [List.length_eq_zero] using hne
  refine ⟨?_, sqlCols_length data jsToSql, by simp, sqlCols_getD data jsToSql, ?_, ?_, ?_⟩
  · simp [sqlForPartialUpdate, hlen, hne]
  · intro i hi
    rw [List.getD_eq_getElem _ _ (by simpa using hi), List.getD_eq_getElem _ _ hi]
    simp
  · intro k s hk hs
    unfold resolveCol
    rw [hk]
    simp [hs]
  · intro k hk
    unfold resolveCol
    rw [hk]

theorem sqlForPartialUpdate_clauses_witness :
    ([("numEmployees", JsValue.num 50), ("logoUrl", JsValue.str "x")] :
        List (String × JsValue)) ≠ [] ∧
    sqlForPartialUpdate [("numEmployees", JsValue.num 50), ("logoUrl", JsValue.str "x")]
        [("numEmployees", "num_employees"), ("logoUrl", "logo_url")] =
      .ok { setCols := String.intercalate ", "
              (sqlCols [("numEmployees", JsValue.num 50), ("logoUrl", JsValue.str "x")]
                [("numEmployees", "num_employees"), ("logoUrl", "logo_url")]),
            values := [("numEmployees", JsValue.num 50),
              ("logoUrl", JsValue.str "x")].map Prod.snd } :=
  ⟨by decide,
   (sqlForPartialUpdate_clauses
      [("numEmployees", JsValue.num 50), ("logoUrl", JsValue.str "x")]
      [("numEmployees", "num_employees"), ("logoUrl", "logo_url")] (by decide)).1⟩

/-- C6 (counterexample to the claim as stated): with payload `{a: 1}` and
remapping `{a: ""}` the remapping for field `a` is present — the lookup
yields the empty string — yet the generated clause quotes the field name `a`,
not the supplied remapping, because `jsToSql[colName] || colName` treats the
falsy empty string as absent. -/
theorem sqlForPartialUpdate_empty_remap :
    lookupStr [("a", "")] "a" = some "" ∧
    sqlForPartialUpdate [("a", JsValue.num 1)] [("a", "")] =
      .ok { setCols := "\"a\"=$1", values := [JsValue.num 1] } ∧
    ("\"a\"=$1" : String) ≠ "\"\"=$1" :=
  ⟨rfl, by decide, by decide⟩

/-- C3 (amended): when both employee bounds are present and min exceeds max,
`Company.findSome` raises — before the filter builder output is used and
before any query is issued — the plain untyped `Error` with message
`min needs to be less than max`. -/
theorem company_findSome_minmax_guard (dbq : Dbq) (f : CompanyFilter)
    (mn mx : Int) (h1 : f.minEmployees = some mn) (h2 : f.maxEmployees = some mx)
    (h3 : mn > mx) :
    Company.findSome dbq f =
      (.error (.plainError "min needs to be less than max"), []) := by
  have hg : minMaxInvalid f = true := by
    simp [minMaxInvalid, h1, h2]
    exact h3
  simp [Company.findSome, hg]

theorem company_findSome_minmax_guard_witness :
    ((10 : Int) > 5) ∧
    Company.findSome dbqNone ⟨none, some 10, some 5⟩ =
      (.error (.plainError "min needs to be less than max"), []) :=
  ⟨by decide,
   company_findSome_minmax_guard dbqNone ⟨none, some 10, some 5⟩ 10 5 rfl rfl (by decide)⟩

/-- C3 (counterexample to the claim as stated): on the filter
`minEmployees = 10, maxEmployees = 5` the error raised is the plain untyped
`Error('min needs to be less than max')`, which is not of the ValidationError
kind (the typed `BadRequestError` class that realizes it in this
codebase). -/
theorem company_findSome_minmax_plain_error :
    (Company.findSome dbqNone ⟨none, some 10, some 5⟩).1 =
      Except.error (JError.plainError "min needs to be less than max") ∧
    specIsValidationError (JError.plainError "min needs to be less than max") = false :=
  ⟨by decide, rfl⟩

/-- C9: `Job.create` issues the referential pre-check first; when the
pre-check returns no company row the operation fails with `NotFoundError`
naming the handle and the insert is never issued, and when it returns a row
exactly two queries are issued — the pre-check followed by the insert. -/
theorem job_create_precheck_then_insert (dbq : Dbq) (t s e : JsValue) (h : String) :
    (dbq (Query.selectCompanyByHandle h) = [] →
      Job.create dbq t s e h =
        (.error (.notFound ("No company: " ++ h)), [Query.selectCompanyByHandle h]) ∧
      ∀ vs, Query.insertJob vs ∉ (Job.create dbq t s e h).2) ∧
    (dbq (Query.selectCompanyByHandle h) ≠ [] →
      (Job.create dbq t s e h).2 =
        [Query.selectCompanyByHandle h, Query.insertJob [t, s, e, JsValue.str h]]) := by
  constructor
  · intro hempty
    constructor
    · simp [Job.create, hempty]
    · intro vs hmem
      simp [Job.create, hempty] at hmem
  · intro hne
    cases hcase : dbq (Query.selectCompanyByHandle h) with
    | nil => exact absurd hcase hne
    | cons r rs => simp [Job.create, hcase]

/-- C8: the Job filter builder adds the valueless `equity > 0` criterion
exactly when `hasEquity` is the boolean `true`: the criterion appears iff
`hasEquity === true`, it is appended after the value-consuming criteria
without consuming a bind value (the value list is the one obtained with
`hasEquity` absent), and any other `hasEquity` value adds nothing. -/
theorem job_filter_hasEquity_strict (fb : JobFilter) :
    ("equity > 0" ∈ (jobFilterParts fb).1 ↔ fb.hasEquity = JsValue.bool true) ∧
    (jobFilterParts fb).1 =
      (jobFilterParts ⟨fb.titleLike, fb.minSalary, JsValue.undef⟩).1 ++
        (if fb.hasEquity = JsValue.bool true then ["equity > 0"] else []) ∧
    (Job.createSqlFilter fb).values =
      (Job.createSqlFilter ⟨fb.titleLike, fb.minSalary, JsValue.undef⟩).values := by
  obtain ⟨tl, ms, he⟩ := fb
  by_cases h : he = JsValue.bool true <;>
    cases tl <;> cases ms <;>
      refine ⟨?_, ?_, ?_⟩ <;>
        · try simp [jobFilterParts, Job.createSqlFilter, h]
          try decide

theorem job_create_precheck_witness :
    dbqNone (Query.selectCompanyByHandle "c1") = [] ∧
    dbqC1 (Query.selectCompanyByHandle "c1") = [[("handle", JsValue.str "c1")]] ∧
    Job.create dbqNone (JsValue.str "t") JsValue.null JsValue.null "c1" =
      (.error (.notFound ("No company: " ++ "c1")), [Query.selectCompanyByHandle "c1"]) ∧
    (Job.create dbqC1 (JsValue.str "t") JsValue.null JsValue.null "c1").2 =
      [Query.selectCompanyByHandle "c1",
       Query.insertJob [JsValue.str "t", JsValue.null, JsValue.null, JsValue.str "c1"]] :=
  ⟨rfl, by decide,
   ((job_create_precheck_then_insert dbqNone (JsValue.str "t") JsValue.null JsValue.null
       "c1").1 rfl).1,
   (job_create_precheck_then_insert dbqC1 (JsValue.str "t") JsValue.null JsValue.null
       "c1").2 (by decide)⟩
